import Mathlib

/-
Shallow embedding of the pyswd ST-Link driver core (src/swd/stlink.py,
src/swd/devices/stm32.py, src/swd/devices/mcu.py).

The USB transport (StlinkCom.xfer) is modelled as an oracle function
from (command bytes, rx length) to response bytes; each operation also
returns the list of transport exchanges it performed, so that
"nothing was sent on the wire" is expressible as an empty trace.
Machine integers are Nat with explicit mod where the source masks.
-/

namespace PySwd

/-- Decode a list of bytes as a little-endian number
(Python int.from_bytes(bs, byteorder=little)). -/
def bytesToNatLE : List Nat → Nat
  | [] => 0
  | b :: bs => b + 256 * bytesToNatLE bs

/-- Decode a list of bytes as a big-endian number
(Python int.from_bytes(bs, byteorder=big)). -/
def bytesToNatBE (bs : List Nat) : Nat :=
  bs.foldl (fun acc b => acc * 256 + b) 0

/-- Encode a number as len bytes little-endian
(Python n.to_bytes(len, byteorder=little)). -/
def natToBytesLE : Nat → Nat → List Nat
  | 0, _ => []
  | l + 1, n => n % 256 :: natToBytesLE l (n / 256)

/-- Python slice res[lo:hi] decoded little-endian. -/
def sliceLE (res : List Nat) (lo hi : Nat) : Nat :=
  bytesToNatLE ((res.drop lo).take (hi - lo))

/-- One transport exchange: command bytes, optional data payload,
requested rx length (0 when none). -/
structure XferCall where
  cmd : List Nat
  data : List Nat
  rxLength : Nat
deriving DecidableEq

/-- Transport oracle: command bytes and rx length to response bytes
(StlinkCom.xfer). -/
def Com : Type := List Nat → Nat → List Nat

/-- Error model of stlink.py: the base StlinkException carries its
positional args; OutdatedStlinkFirmware is the dedicated subclass. -/
inductive StlinkErr where
  | stlinkException (args : List String)
  | outdatedStlinkFirmware (current minimal : String)
deriving DecidableEq

/-- Version fields held by Stlink.StlinkVersion; a field is none when
the corresponding key is absent from the version dict. -/
structure StlinkVersion where
  stlink : Option Nat
  jtag : Option Nat
  swim : Option Nat
  mass : Option Nat
  api : Option Nat
  bridge : Option Nat
  dev : String
deriving DecidableEq

/-- Python f-string rendering of a possibly missing number. -/
def pyShow : Option Nat → String
  | some n => toString n
  | none => "None"

/-- One optional component of the version string: appended only when
the field is truthy in Python (present and nonzero). -/
def optPart (tag : String) : Option Nat → String
  | some n => if n ≠ 0 then tag ++ toString n else ""
  | none => ""

/-- StlinkVersion.__init__ string construction. -/
def versionStr (v : StlinkVersion) : String :=
  "ST-Link/" ++ v.dev ++ " V" ++ pyShow v.stlink
    ++ optPart "J" v.jtag ++ optPart "S" v.swim
    ++ optPart "M" v.mass ++ optPart "B" v.bridge

/-- Stlink._read_version parsing: res is the 6-byte GET_VERSION
response, dev the transport generation string, verEx the 16-byte
GET_VERSION_EX response used only for V3. -/
def parseVersion (res : List Nat) (dev : String) (verEx : List Nat) :
    StlinkVersion :=
  let ver := bytesToNatBE (res.take 2)
  let verStlink := ver / 4096 % 16
  if verStlink = 2 then
    { stlink := some verStlink
      jtag := some (ver / 64 % 64)
      swim := if dev = "V2" then some (ver % 64) else none
      mass := if dev = "V2-1" then some (ver % 64) else none
      api := some (if ver / 64 % 64 ≤ 11 then 1 else 2)
      bridge := none
      dev := dev }
  else if verStlink = 3 then
    { stlink := some verStlink
      jtag := some (verEx.getD 2 0)
      swim := some (verEx.getD 1 0)
      mass := some (verEx.getD 3 0)
      api := some 3
      bridge := some (verEx.getD 4 0)
      dev := dev }
  else
    { stlink := some verStlink
      jtag := none
      swim := none
      mass := none
      api := none
      bridge := none
      dev := dev }

/-- Stlink._SWD_FREQ: fixed descending table of (hz, opcode). -/
def SWD_FREQ : List (Nat × Nat) :=
  [(4000000, 0), (1800000, 1), (1200000, 2), (950000, 3), (480000, 7),
   (240000, 15), (125000, 31), (100000, 40), (50000, 79), (25000, 158)]

/-- Stlink._set_swd_freq_v2: version gate, first table row with
hz at most the requested frequency, SWD_SET_FREQ exchange, status check. -/
def set_swd_freq_v2 (jtag : Nat) (verStr : String) (com : Com)
    (swd_frequency : Nat) : Except StlinkErr Unit × List XferCall :=
  if jtag < 22 then
    (.error (.outdatedStlinkFirmware verStr "J22"), [])
  else
    match SWD_FREQ.find? (fun p => decide (swd_frequency ≥ p.1)) with
    | some (_, data) =>
      let cmd := [0xf2, 0x43, data]
      let res := com cmd 2
      if res.getD 0 0 ≠ 0x80 then
        (.error (.stlinkException ["Error switching SWD frequency"]),
         [⟨cmd, [], 2⟩])
      else (.ok (), [⟨cmd, [], 2⟩])
    | none =>
      (.error (.stlinkException ["Selected SWD frequency is too low"]), [])

/-- Stlink._set_swd_freq_v3 entry decode as the source writes it:
bytes res[12 + 4*i : 15 + 4*i], i.e. THREE bytes, little-endian. -/
def v3EntryCode (res : List Nat) (i : Nat) : Nat :=
  bytesToNatLE ((res.drop (12 + 4 * i)).take 3)

/-- Spec-side decode for comparison (spec.md 4.3): a 32-bit
little-endian value from the FOUR bytes at offset 12 + 4*i. -/
def v3EntryCodeSpec (res : List Nat) (i : Nat) : Nat :=
  bytesToNatLE ((res.drop (12 + 4 * i)).take 4)

/-- Stlink._set_swd_freq_v3: api gate, GET_COM_FREQ exchange, scan of
the advertised entries for the first with requested kHz at least the
entry, then SET_COM_FREQ exchange and status check. -/
def set_swd_freq_v3 (api : Nat) (verStr : String) (com : Com)
    (swd_frequency : Nat) : Except StlinkErr Unit × List XferCall :=
  if api < 3 then
    (.error (.outdatedStlinkFirmware verStr "V3"), [])
  else
    let getCmd := [0xf2, 0x62, 0]
    let res := com getCmd 52
    let count := res.getD 8 0
    match (List.range count).find?
        (fun i => decide (swd_frequency / 1000 ≥ v3EntryCode res i)) with
    | none =>
      (.error (.stlinkException ["Requested SWD frequency is too low"]),
       [⟨getCmd, [], 52⟩])
    | some i =>
      let freqKhz := v3EntryCode res i
      let setCmd := [0xf2, 0x61, 0, 0] ++ natToBytesLE 4 freqKhz
      let res2 := com setCmd 2
      if res2.getD 0 0 ≠ 0x80 then
        (.error (.stlinkException ["Error switching SWD frequency"]),
         [⟨getCmd, [], 52⟩, ⟨setCmd, [], 2⟩])
      else (.ok (), [⟨getCmd, [], 52⟩, ⟨setCmd, [], 2⟩])

/-- Stlink.get_idcode: READ_IDCODES exchange, idcode from response
bytes 4..8 little-endian, error when zero. -/
def get_idcode (com : Com) : Except StlinkErr Nat × List XferCall :=
  let cmd := [0xf2, 0x31]
  let res := com cmd 12
  let idcode := sliceLE res 4 8
  if idcode = 0 then
    (.error (.stlinkException ["No IDCODE, probably MCU is not connected"]),
     [⟨cmd, [], 12⟩])
  else (.ok idcode, [⟨cmd, [], 12⟩])

/-- Stlink._STLINK_MAXIMUM_8BIT_DATA. -/
def STLINK_MAXIMUM_8BIT_DATA : Nat := 64

/-- Context a memory operation reads: version fields api, jtag and the
version string, the transfer cap taken from the com driver
(StlinkCom.STLINK_MAXIMUM_TRANSFER_SIZE), and the transport oracle. -/
structure MemCtx where
  api : Nat
  jtag : Nat
  verStr : String
  maxTransfer : Nat
  com : Com

/-- Stlink.read_mem8: size cap, then READMEM_8BIT exchange. -/
def read_mem8 (ctx : MemCtx) (address size : Nat) :
    Except StlinkErr (List Nat) × List XferCall :=
  if size > STLINK_MAXIMUM_8BIT_DATA then
    (.error (.stlinkException
      ["Too many Bytes to read (maximum is "
        ++ toString STLINK_MAXIMUM_8BIT_DATA ++ " Bytes)"]), [])
  else
    let cmd := [0xf2, 0x0c] ++ natToBytesLE 4 address ++ natToBytesLE 4 size
    (.ok (ctx.com cmd size), [⟨cmd, [], size⟩])

/-- Stlink.write_mem8: size cap, then WRITEMEM_8BIT exchange with data. -/
def write_mem8 (_ctx : MemCtx) (address : Nat) (data : List Nat) :
    Except StlinkErr Unit × List XferCall :=
  if data.length > STLINK_MAXIMUM_8BIT_DATA then
    (.error (.stlinkException
      ["Too many Bytes to write (maximum is "
        ++ toString STLINK_MAXIMUM_8BIT_DATA ++ " Bytes)"]), [])
  else
    let cmd := [0xf2, 0x0d] ++ natToBytesLE 4 address
      ++ natToBytesLE 4 data.length
    (.ok (), [⟨cmd, data, 0⟩])

/-- Stlink.read_mem16: firmware gate (raising the BASE StlinkException
with two args, exactly as the source does), alignment of address and
size, size cap, then READMEM_16BIT exchange. -/
def read_mem16 (ctx : MemCtx) (address size : Nat) :
    Except StlinkErr (List Nat) × List XferCall :=
  if ctx.api ≤ 2 ∧ ctx.jtag < 29 then
    (.error (.stlinkException [ctx.verStr, "J29"]), [])
  else if address % 2 ≠ 0 then
    (.error (.stlinkException ["Address is not aligned to 2 Bytes"]), [])
  else if size % 2 ≠ 0 then
    (.error (.stlinkException ["Size is not aligned to 2 Bytes"]), [])
  else if size > ctx.maxTransfer then
    (.error (.stlinkException
      ["Too many Bytes to read (maximum is "
        ++ toString ctx.maxTransfer ++ " Bytes)"]), [])
  else
    let cmd := [0xf2, 0x47] ++ natToBytesLE 4 address ++ natToBytesLE 4 size
    (.ok (ctx.com cmd size), [⟨cmd, [], size⟩])

/-- Stlink.write_mem16: same gate and checks as read_mem16, then
WRITEMEM_16BIT exchange with data. -/
def write_mem16 (ctx : MemCtx) (address : Nat) (data : List Nat) :
    Except StlinkErr Unit × List XferCall :=
  if ctx.api ≤ 2 ∧ ctx.jtag < 29 then
    (.error (.stlinkException [ctx.verStr, "J29"]), [])
  else if address % 2 ≠ 0 then
    (.error (.stlinkException ["Address is not aligned to 2 Bytes"]), [])
  else if data.length % 2 ≠ 0 then
    (.error (.stlinkException ["Size is not aligned to 2 Bytes"]), [])
  else if data.length > ctx.maxTransfer then
    (.error (.stlinkException
      ["Too many Bytes to write (maximum is "
        ++ toString ctx.maxTransfer ++ " Bytes)"]), [])
  else
    let cmd := [0xf2, 0x48] ++ natToBytesLE 4 address
      ++ natToBytesLE 4 data.length
    (.ok (), [⟨cmd, data, 0⟩])

/-- Stlink.read_mem32: alignment of address and size, size cap, then
READMEM_32BIT exchange. -/
def read_mem32 (ctx : MemCtx) (address size : Nat) :
    Except StlinkErr (List Nat) × List XferCall :=
  if address % 4 ≠ 0 then
    (.error (.stlinkException ["Address is not aligned to 4 Bytes"]), [])
  else if size % 4 ≠ 0 then
    (.error (.stlinkException ["Size is not aligned to 4 Bytes"]), [])
  else if size > ctx.maxTransfer then
    (.error (.stlinkException
      ["Too many Bytes to read (maximum is "
        ++ toString ctx.maxTransfer ++ " Bytes)"]), [])
  else
    let cmd := [0xf2, 0x07] ++ natToBytesLE 4 address ++ natToBytesLE 4 size
    (.ok (ctx.com cmd size), [⟨cmd, [], size⟩])

/-- Stlink.write_mem32: alignment of address and size, size cap, then
WRITEMEM_32BIT exchange with data. -/
def write_mem32 (ctx : MemCtx) (address : Nat) (data : List Nat) :
    Except StlinkErr Unit × List XferCall :=
  if address % 4 ≠ 0 then
    (.error (.stlinkException ["Address is not aligned to 4 Bytes"]), [])
  else if data.length % 4 ≠ 0 then
    (.error (.stlinkException ["Size is not aligned to 4 Bytes"]), [])
  else if data.length > ctx.maxTransfer then
    (.error (.stlinkException
      ["Too many Bytes to write (maximum is "
        ++ toString ctx.maxTransfer ++ " Bytes)"]), [])
  else
    let cmd := [0xf2, 0x08] ++ natToBytesLE 4 address
      ++ natToBytesLE 4 data.length
    (.ok (), [⟨cmd, data, 0⟩])

/-- Stlink.get_mem32: 4-byte address alignment, then READDEBUGREG
exchange; value from response bytes 4..8 little-endian. -/
def get_mem32 (ctx : MemCtx) (address : Nat) :
    Except StlinkErr Nat × List XferCall :=
  if address % 4 ≠ 0 then
    (.error (.stlinkException ["Address is not aligned to 4 Bytes"]), [])
  else
    let cmd := [0xf2, 0x36] ++ natToBytesLE 4 address
    let res := ctx.com cmd 8
    (.ok (sliceLE res 4 8), [⟨cmd, [], 8⟩])

/-- Stlink.set_mem32: 4-byte address alignment, then WRITEDEBUGREG
exchange. -/
def set_mem32 (_ctx : MemCtx) (address data : Nat) :
    Except StlinkErr Unit × List XferCall :=
  if address % 4 ≠ 0 then
    (.error (.stlinkException ["Address is not aligned to 4 Bytes"]), [])
  else
    let cmd := [0xf2, 0x35] ++ natToBytesLE 4 address ++ natToBytesLE 4 data
    (.ok (), [⟨cmd, [], 2⟩])

/-
STM32 identification layer (src/swd/devices/stm32.py).
-/

/-- A memory region descriptor of the device catalog. -/
structure MemRegion where
  name : String
  address : Nat
  size : Nat
deriving DecidableEq

/-- Modelled from the spec: swd/devices/memory.py is not under src/;
spec.md 4.5 step 4 multiplies the raw kilobyte count by 1024. -/
def KILO : Nat := 1024

/-- Modelled from the spec: swd/devices/memory.py is not under src/;
spec.md 4.6 defines MemoryRegions.get_size(name) as the size in bytes
of the region with that (case-sensitive) name, 0 when absent, with
region names unique within a map. -/
def getSize (regions : List MemRegion) (name : String) : Nat :=
  match regions.find? (fun r => r.name = name) with
  | some r => r.size
  | none => 0

/-- One catalog entry (dict in the source; optional keys become
Option fields). -/
structure McuSpec where
  mcu_name : String
  dev_id : Option Nat
  flash_size_reg : Option Nat
  svd_file : Option String
  memory : List MemRegion
deriving DecidableEq

/-- Error model of the identification layer. pyKeyError models the
unstructured Python KeyError that set().pop() raises on an empty set;
it is not one of the structured mcu.py exception classes. -/
inductive McuErr where
  | mcuError (msg : String)
  | unknownMcuDetected (devId : Nat) (flashSize : Option Nat)
  | mcuNotMatch (detected expected : List String)
  | pyKeyError
deriving DecidableEq

/-- Stm32._select_by_specs specialised to its only call site, which
passes the single keyword argument dev_id. -/
def select_by_specs (specs : List McuSpec) (devId : Nat) : List McuSpec :=
  specs.filter (fun s => s.dev_id = some devId)

/-- Stm32._selet_mcus_by_flash_size (name kept from the source):
keep entries whose FLASH region size equals the detected flash size. -/
def selet_mcus_by_flash_size (mcus : List McuSpec) (flashSize : Nat) :
    List McuSpec :=
  mcus.filter (fun m => flashSize = getSize m.memory "FLASH")

/-- Stm32._mcu_values: the set of values under a key across the
entries that have the key (Python set comprehension; here the list of
distinct values). -/
def mcu_values (mcus : List McuSpec) (key : McuSpec → Option Nat) :
    List Nat :=
  (mcus.filterMap key).dedup

/-- Stm32._mcu_value: McuError when more than one distinct value,
otherwise set.pop(), which on an empty set raises Python KeyError. -/
def mcu_value (mcus : List McuSpec) (key : McuSpec → Option Nat) :
    Except McuErr Nat :=
  let values := mcu_values mcus key
  if values.length > 1 then
    .error (.mcuError "Error, more values in MCUs under key")
  else
    match values with
    | [] => .error .pyKeyError
    | v :: _ => .ok v

/-- Python str.upper restricted to the character-wise case map. -/
def upper (s : String) : String :=
  String.mk (s.toList.map Char.toUpper)

/-- Python str.startswith. -/
def pyStartsWith (s pre : String) : Bool :=
  pre.toList.isPrefixOf s.toList

/-- Stm32._fix_mcu_name: when the name is longer than 9 characters,
replace the character at index 9 with the letter x. -/
def fix_mcu_name (name : String) : String :=
  if name.length > 9 then String.mk (name.toList.set 9 'x') else name

/-- Stm32._fix_mcu_names: None for an empty input; otherwise keep the
names whose upper-case form starts with the family name truncated to
the name's length, each fixed by fix_mcu_name applied to the ORIGINAL
(not upper-cased) name, as a set. -/
def fix_mcu_names (famName : String) (mcuNames : List String) :
    Option (List String) :=
  if mcuNames = [] then none
  else
    some ((mcuNames.filterMap (fun n =>
      let fixedName := upper n
      if pyStartsWith fixedName (famName.take fixedName.length) then
        some (fix_mcu_name n)
      else none)).dedup)

/-- Stm32._is_expected_mcu: true on an empty filter, otherwise true
when the entry's mcu_name starts with some expected name. -/
def is_expected_mcu (mcu : McuSpec) (expectedMcus : List String) : Bool :=
  if expectedMcus = [] then true
  else expectedMcus.any (fun n => pyStartsWith mcu.mcu_name n)

/-- Stm32._select_mcus_by_expected: canonicalize the expected names;
when the canonical set is truthy, keep the entries it matches. -/
def select_mcus_by_expected (famName : String) (mcus : List McuSpec)
    (expectedMcus : List String) : List McuSpec :=
  match fix_mcu_names famName expectedMcus with
  | none => []
  | some fixedNames =>
    if fixedNames = [] then []
    else mcus.filter (fun m => is_expected_mcu m fixedNames)

/-- Stm32._get_mcu_names. -/
def get_mcu_names (mcus : List McuSpec) : List String :=
  mcus.map (fun m => m.mcu_name)

/-- Family-level constants of a Stm32 subclass: name, IDCODE register
address, optional FLASH_SIZE register address, catalog. -/
structure Stm32Family where
  NAME : String
  IDCODE_REG : Nat
  FLASH_SIZE_REG : Option Nat
  MCUS : List McuSpec

/-- Flash-size register address resolution in Stm32.__init__: the
family constant when truthy (present and nonzero), otherwise the
common flash_size_reg value of the candidates. -/
def flash_size_reg_addr (fam : Stm32Family) (mcus : List McuSpec) :
    Except McuErr Nat :=
  match fam.FLASH_SIZE_REG with
  | some a => if a = 0 then mcu_value mcus (fun m => m.flash_size_reg)
              else .ok a
  | none => mcu_value mcus (fun m => m.flash_size_reg)

/-- Stm32.__init__ identification pipeline. mem32 and mem16 are the
target-memory read oracles (Swd.get_mem32 / Swd.get_mem16); the DEV_ID
is the low 12 bits of the IDCODE register value. Returns the remaining
candidates and the detected flash size in bytes. -/
def stm32Init (fam : Stm32Family) (mem32 mem16 : Nat → Nat)
    (expectedMcus : List String) : Except McuErr (List McuSpec × Nat) :=
  let devId := mem32 fam.IDCODE_REG % 4096
  let mcus := select_by_specs fam.MCUS devId
  if mcus = [] then .error (.unknownMcuDetected devId none)
  else
    match flash_size_reg_addr fam mcus with
    | .error e => .error e
    | .ok addr =>
      let flashSize := mem16 addr * KILO
      let mcus2 := selet_mcus_by_flash_size mcus flashSize
      if mcus2 = [] then .error (.unknownMcuDetected devId (some flashSize))
      else if expectedMcus = [] then .ok (mcus2, flashSize)
      else
        let selected := select_mcus_by_expected fam.NAME mcus2 expectedMcus
        if selected = [] then
          .error (.mcuNotMatch (get_mcu_names mcus2) expectedMcus)
        else .ok (selected, flashSize)

/-- Concrete family for exercising a successful identification: one
catalog entry with dev_id 0x410 and a 64 KB FLASH region, family-level
flash-size register present. -/
def famW : Stm32Family :=
  ⟨"STM32", 0xE0042000, some 0x1FFFF7E0,
   [⟨"STM32F103x8", some 0x410, none, none,
     [⟨"FLASH", 0x08000000, 65536⟩]⟩]⟩

/-- Concrete family with no family-level flash-size register and no
per-entry flash_size_reg field. -/
def famW9 : Stm32Family :=
  ⟨"STM32", 0xE0042000, none,
   [⟨"STM32F103x8", some 0x410, none, none,
     [⟨"FLASH", 0x08000000, 65536⟩]⟩]⟩

/-- Decidable equality for results. -/
instance {ε α : Type} [DecidableEq ε] [DecidableEq α] :
    DecidableEq (Except ε α)
  | .error e, .error f =>
    if h : e = f then isTrue (congrArg Except.error h)
    else isFalse (fun hc => h (Except.error.inj hc))
  | .error _, .ok _ => isFalse (fun hc => Except.noConfusion hc)
  | .ok _, .error _ => isFalse (fun hc => Except.noConfusion hc)
  | .ok a, .ok b =>
    if h : a = b then isTrue (congrArg Except.ok h)
    else isFalse (fun hc => h (Except.ok.inj hc))

/-- Whether a result is the error (raised-exception) case. -/
def isErr {ε α : Type} : Except ε α → Bool
  | .error _ => true
  | .ok _ => false

/-
Theorems.
-/

/-- C10: in the canonical version string each of the J, S, M, B
components is appended only when its value is truthy, so a version
whose jtag, swim, mass or bridge minor is 0 (or absent) produces the
same string as one without that component; in particular a V2 probe
with all minors 0 renders bare, and the spec.md scenario renders as
ST-Link/V2-1 V2J13M32. -/
theorem versionStr_omits_zero_components :
    (∀ st sw ma ap br dev,
      versionStr ⟨st, some 0, sw, ma, ap, br, dev⟩
        = versionStr ⟨st, none, sw, ma, ap, br, dev⟩) ∧
    (∀ st j ma ap br dev,
      versionStr ⟨st, j, some 0, ma, ap, br, dev⟩
        = versionStr ⟨st, j, none, ma, ap, br, dev⟩) ∧
    (∀ st j sw ap br dev,
      versionStr ⟨st, j, sw, some 0, ap, br, dev⟩
        = versionStr ⟨st, j, sw, none, ap, br, dev⟩) ∧
    (∀ st j sw ma ap dev,
      versionStr ⟨st, j, sw, ma, ap, some 0, dev⟩
        = versionStr ⟨st, j, sw, ma, ap, none, dev⟩) ∧
    versionStr ⟨some 2, some 0, some 0, some 0, some 1, none, "V2"⟩
      = "ST-Link/V2 V2" ∧
    versionStr ⟨some 2, some 13, none, some 32, some 2, none, "V2-1"⟩
      = "ST-Link/V2-1 V2J13M32" := by
  refine ⟨?_, ?_, ?_, ?_, ?_, ?_⟩
  · intro st sw ma ap br dev; simp [versionStr, optPart]
  · intro st j ma ap br dev; simp [versionStr, optPart]
  · intro st j sw ap br dev; simp [versionStr, optPart]
  · intro st j sw ma ap dev; simp [versionStr, optPart]
  · rfl
  · rfl

/-- C6: the handshake parses the first 2 response bytes big-endian;
the stlink major is bits 12..15; for major 2 the jtag minor is bits
6..11, api is 1 when jtag is at most 11 and otherwise 2, and the low
6 bits become swim for a V2 transport and mass for a V2-1 transport;
for major 3 api is 3; response bytes 0x23 0x60 on a V2-1 transport
give major 2, jtag 13, mass 32, api 2. -/
theorem parseVersion_spec :
    (∀ res dev verEx, (parseVersion res dev verEx).stlink
      = some (bytesToNatBE (res.take 2) / 4096 % 16)) ∧
    (∀ res dev verEx, bytesToNatBE (res.take 2) / 4096 % 16 = 2 →
      (parseVersion res dev verEx).jtag
        = some (bytesToNatBE (res.take 2) / 64 % 64) ∧
      (parseVersion res dev verEx).api
        = some (if bytesToNatBE (res.take 2) / 64 % 64 ≤ 11 then 1 else 2) ∧
      (dev = "V2" → (parseVersion res dev verEx).swim
        = some (bytesToNatBE (res.take 2) % 64)) ∧
      (dev = "V2-1" → (parseVersion res dev verEx).mass
        = some (bytesToNatBE (res.take 2) % 64))) ∧
    (∀ res dev verEx, bytesToNatBE (res.take 2) / 4096 % 16 = 3 →
      (parseVersion res dev verEx).api = some 3) ∧
    parseVersion [0x23, 0x60, 0, 0, 0, 0] "V2-1" []
      = ⟨some 2, some 13, none, some 32, some 2, none, "V2-1"⟩ := by
  refine ⟨?_, ?_, ?_, by decide⟩
  · intro res dev verEx
    unfold parseVersion
    dsimp only
    split
    · rfl
    · split <;> rfl
  · intro res dev verEx h
    refine ⟨?_, ?_, ?_, ?_⟩
    · simp [parseVersion, h]
    · simp [parseVersion, h]
    · intro hdev; simp [parseVersion, h, hdev]
    · intro hdev; simp [parseVersion, h, hdev]
  · intro res dev verEx h
    simp [parseVersion, h]

/-- C6 witness: the V2-1 scenario instance and a major-3 instance. -/
theorem parseVersion_spec_witness :
    (parseVersion [0x23, 0x60] "V2-1" []).jtag = some 13 ∧
    (parseVersion [0x23, 0x60] "V2-1" []).mass = some 32 ∧
    (parseVersion [0x30, 0x00] "V3" []).api = some 3 := by
  have h := parseVersion_spec.2.1 [0x23, 0x60] "V2-1" [] (by decide)
  refine ⟨h.1.trans (by decide), (h.2.2.2 rfl).trans (by decide), ?_⟩
  exact parseVersion_spec.2.2.1 [0x30, 0x00] "V3" [] (by decide)

/-- C7: get_idcode sends READ_IDCODES, decodes bytes 4..8 of the
response little-endian, errors exactly when that word is 0, and so
never returns 0. -/
theorem get_idcode_spec : ∀ com : Com,
    ((get_idcode com).1
        = .error (.stlinkException
            ["No IDCODE, probably MCU is not connected"])
      ↔ sliceLE (com [0xf2, 0x31] 12) 4 8 = 0) ∧
    (sliceLE (com [0xf2, 0x31] 12) 4 8 ≠ 0 →
      (get_idcode com).1 = .ok (sliceLE (com [0xf2, 0x31] 12) 4 8)) ∧
    (∀ n, (get_idcode com).1 = .ok n → n ≠ 0) ∧
    (get_idcode com).2 = [⟨[0xf2, 0x31], [], 12⟩] := by
  intro com
  unfold get_idcode
  dsimp only
  by_cases h : sliceLE (com [0xf2, 0x31] 12) 4 8 = 0
  · rw [if_pos h]
    refine ⟨by simp [h], fun hn => absurd h hn, ?_, rfl⟩
    intro n hn
    exact absurd hn (by simp)
  · rw [if_neg h]
    refine ⟨by simp [h], fun _ => rfl, ?_, rfl⟩
    intro n hn
    rw [Except.ok.inj hn] at h
    exact h

/-- C7 witness: a nonzero idcode is returned as is; a response that is
all zeros is rejected. -/
theorem get_idcode_spec_witness :
    (get_idcode (fun _ _ =>
        [0, 0, 0, 0, 0x77, 0x56, 0x34, 0x12, 0, 0, 0, 0])).1
      = .ok 0x12345677 ∧
    (0x12345677 : Nat) ≠ 0 := by
  have h := get_idcode_spec
    (fun _ _ => [0, 0, 0, 0, 0x77, 0x56, 0x34, 0x12, 0, 0, 0, 0])
  refine ⟨?_, ?_⟩
  · rw [h.2.1 (by decide)]; decide
  · exact h.2.2.1 0x12345677 (by rw [h.2.1 (by decide)]; decide)

/-- C5: V2 frequency negotiation: jtag below 22 fails with
OutdatedStlinkFirmware and nothing is sent; when no table row has hz
at most the request it fails FrequencyTooLow with nothing sent; when
the first qualifying row is (hz, d) it sends 0xF2 0x43 d, reads 2
bytes and fails unless byte 0 is 0x80; requesting 1 MHz selects the
row (950000, 3). -/
theorem set_swd_freq_v2_spec :
    ∀ (jtag : Nat) (verStr : String) (com : Com) (req : Nat),
    (jtag < 22 → set_swd_freq_v2 jtag verStr com req
      = (.error (.outdatedStlinkFirmware verStr "J22"), [])) ∧
    (¬ jtag < 22 → (∀ p ∈ SWD_FREQ, req < p.1) →
      set_swd_freq_v2 jtag verStr com req
        = (.error (.stlinkException ["Selected SWD frequency is too low"]),
           [])) ∧
    (¬ jtag < 22 → ∀ hz d,
      SWD_FREQ.find? (fun p => decide (req ≥ p.1)) = some (hz, d) →
      hz ≤ req ∧
      set_swd_freq_v2 jtag verStr com req
        = (if (com [0xf2, 0x43, d] 2).getD 0 0 ≠ 0x80
           then (.error (.stlinkException ["Error switching SWD frequency"]),
                 [⟨[0xf2, 0x43, d], [], 2⟩])
           else (.ok (), [⟨[0xf2, 0x43, d], [], 2⟩]))) ∧
    SWD_FREQ.find? (fun p => decide (1000000 ≥ p.1)) = some (950000, 3) := by
  intro jtag verStr com req
  refine ⟨?_, ?_, ?_, by decide⟩
  · intro h
    simp [set_swd_freq_v2, h]
  · intro h hall
    have hnone : SWD_FREQ.find? (fun p => decide (req ≥ p.1)) = none := by
      refine List.find?_eq_none.mpr ?_
      intro p hp
      simpa using Nat.not_le.mpr (hall p hp)
    simp [set_swd_freq_v2, h, hnone]
  · intro h hz d hfind
    have hle : hz ≤ req := by
      have := List.find?_some hfind
      simpa using this
    refine ⟨hle, ?_⟩
    simp only [set_swd_freq_v2, if_neg h, hfind]

/-- C5 witness: jtag 21 is gated; 10 kHz is below every row; 1 MHz on
a probe answering 0x80 selects opcode 3 and succeeds. -/
theorem set_swd_freq_v2_spec_witness :
    set_swd_freq_v2 21 "v" (fun _ _ => [0x80, 0]) 1000000
      = (.error (.outdatedStlinkFirmware "v" "J22"), []) ∧
    set_swd_freq_v2 22 "v" (fun _ _ => [0x80, 0]) 10000
      = (.error (.stlinkException ["Selected SWD frequency is too low"]),
         []) ∧
    (950000 : Nat) ≤ 1000000 ∧
    set_swd_freq_v2 22 "v" (fun _ _ => [0x80, 0]) 1000000
      = (.ok (), [⟨[0xf2, 0x43, 3], [], 2⟩]) := by
  have h1 := (set_swd_freq_v2_spec 21 "v" (fun _ _ => [0x80, 0]) 1000000).1
    (by decide)
  have h2 := (set_swd_freq_v2_spec 22 "v" (fun _ _ => [0x80, 0]) 10000).2.1
    (by decide) (by decide)
  have h3 := (set_swd_freq_v2_spec 22 "v" (fun _ _ => [0x80, 0]) 1000000).2.2.1
    (by decide) 950000 3 (by decide)
  refine ⟨h1, h2, h3.1, ?_⟩
  rw [h3.2]
  decide

/-- C4: for each of the eight memory-access operations, any argument
violating a stated precondition (size cap for 8-bit, firmware gate,
alignment and cap for 16-bit, alignment and cap for 32-bit, address
alignment for the debug-register word accesses) yields the raised
error with an empty transport trace: zero bytes are sent. -/
theorem mem_ops_precondition_no_wire :
    ∀ (ctx : MemCtx) (address size : Nat) (data : List Nat),
    (size > STLINK_MAXIMUM_8BIT_DATA →
      isErr (read_mem8 ctx address size).1 = true ∧
      (read_mem8 ctx address size).2 = []) ∧
    (data.length > STLINK_MAXIMUM_8BIT_DATA →
      isErr (write_mem8 ctx address data).1 = true ∧
      (write_mem8 ctx address data).2 = []) ∧
    ((ctx.api ≤ 2 ∧ ctx.jtag < 29) ∨ address % 2 ≠ 0 ∨ size % 2 ≠ 0 ∨
        size > ctx.maxTransfer →
      isErr (read_mem16 ctx address size).1 = true ∧
      (read_mem16 ctx address size).2 = []) ∧
    ((ctx.api ≤ 2 ∧ ctx.jtag < 29) ∨ address % 2 ≠ 0 ∨
        data.length % 2 ≠ 0 ∨ data.length > ctx.maxTransfer →
      isErr (write_mem16 ctx address data).1 = true ∧
      (write_mem16 ctx address data).2 = []) ∧
    (address % 4 ≠ 0 ∨ size % 4 ≠ 0 ∨ size > ctx.maxTransfer →
      isErr (read_mem32 ctx address size).1 = true ∧
      (read_mem32 ctx address size).2 = []) ∧
    (address % 4 ≠ 0 ∨ data.length % 4 ≠ 0 ∨
        data.length > ctx.maxTransfer →
      isErr (write_mem32 ctx address data).1 = true ∧
      (write_mem32 ctx address data).2 = []) ∧
    (address % 4 ≠ 0 →
      isErr (get_mem32 ctx address).1 = true ∧
      (get_mem32 ctx address).2 = []) ∧
    (address % 4 ≠ 0 →
      isErr (set_mem32 ctx address size).1 = true ∧
      (set_mem32 ctx address size).2 = []) := by
  intro ctx address size data
  refine ⟨?_, ?_, ?_, ?_, ?_, ?_, ?_, ?_⟩ <;> intro h
  · unfold read_mem8
    rw [if_pos h]
    exact ⟨rfl, rfl⟩
  · unfold write_mem8
    rw [if_pos h]
    exact ⟨rfl, rfl⟩
  · unfold read_mem16
    split
    · exact ⟨rfl, rfl⟩
    · split
      · exact ⟨rfl, rfl⟩
      · split
        · exact ⟨rfl, rfl⟩
        · split
          · exact ⟨rfl, rfl⟩
          · omega
  · unfold write_mem16
    split
    · exact ⟨rfl, rfl⟩
    · split
      · exact ⟨rfl, rfl⟩
      · split
        · exact ⟨rfl, rfl⟩
        · split
          · exact ⟨rfl, rfl⟩
          · omega
  · unfold read_mem32
    split
    · exact ⟨rfl, rfl⟩
    · split
      · exact ⟨rfl, rfl⟩
      · split
        · exact ⟨rfl, rfl⟩
        · omega
  · unfold write_mem32
    split
    · exact ⟨rfl, rfl⟩
    · split
      · exact ⟨rfl, rfl⟩
      · split
        · exact ⟨rfl, rfl⟩
        · omega
  · unfold get_mem32
    rw [if_pos h]
    exact ⟨rfl, rfl⟩
  · unfold set_mem32
    rw [if_pos h]
    exact ⟨rfl, rfl⟩

/-- C4 witness: an api-2 jtag-28 probe, odd address 1, size 65 and a
65-byte payload violate a precondition of every operation; each one
errors with an empty trace. -/
theorem mem_ops_precondition_no_wire_witness :
    (isErr (read_mem8 ⟨2, 28, "v", 1024, fun _ _ => []⟩ 1 65).1 = true ∧
      (read_mem8 ⟨2, 28, "v", 1024, fun _ _ => []⟩ 1 65).2 = []) ∧
    (isErr (write_mem8 ⟨2, 28, "v", 1024, fun _ _ => []⟩ 1
        (List.replicate 65 0)).1 = true ∧
      (write_mem8 ⟨2, 28, "v", 1024, fun _ _ => []⟩ 1
        (List.replicate 65 0)).2 = []) ∧
    (isErr (read_mem16 ⟨2, 28, "v", 1024, fun _ _ => []⟩ 1 65).1 = true ∧
      (read_mem16 ⟨2, 28, "v", 1024, fun _ _ => []⟩ 1 65).2 = []) ∧
    (isErr (write_mem16 ⟨2, 28, "v", 1024, fun _ _ => []⟩ 1
        (List.replicate 65 0)).1 = true ∧
      (write_mem16 ⟨2, 28, "v", 1024, fun _ _ => []⟩ 1
        (List.replicate 65 0)).2 = []) ∧
    (isErr (read_mem32 ⟨2, 28, "v", 1024, fun _ _ => []⟩ 1 65).1 = true ∧
      (read_mem32 ⟨2, 28, "v", 1024, fun _ _ => []⟩ 1 65).2 = []) ∧
    (isErr (write_mem32 ⟨2, 28, "v", 1024, fun _ _ => []⟩ 1
        (List.replicate 65 0)).1 = true ∧
      (write_mem32 ⟨2, 28, "v", 1024, fun _ _ => []⟩ 1
        (List.replicate 65 0)).2 = []) ∧
    (isErr (get_mem32 ⟨2, 28, "v", 1024, fun _ _ => []⟩ 1).1 = true ∧
      (get_mem32 ⟨2, 28, "v", 1024, fun _ _ => []⟩ 1).2 = []) ∧
    (isErr (set_mem32 ⟨2, 28, "v", 1024, fun _ _ => []⟩ 1 65).1 = true ∧
      (set_mem32 ⟨2, 28, "v", 1024, fun _ _ => []⟩ 1 65).2 = []) := by
  have h := mem_ops_precondition_no_wire ⟨2, 28, "v", 1024, fun _ _ => []⟩
    1 65 (List.replicate 65 0)
  exact ⟨h.1 (by decide), h.2.1 (by decide), h.2.2.1 (by decide),
    h.2.2.2.1 (by decide), h.2.2.2.2.1 (by decide),
    h.2.2.2.2.2.1 (by decide), h.2.2.2.2.2.2.1 (by decide),
    h.2.2.2.2.2.2.2 (by decide)⟩

/-- C1: the source decodes each advertised V3 frequency entry from
only THREE bytes (res[12+4i : 15+4i]) although entries are laid out on
a 4-byte stride and the claim and spec say 32-bit (4 bytes). On a
response advertising one entry whose 4 bytes are 00 00 00 01 (16777216
kHz as a 32-bit value), the code decodes 0 kHz, so a 1 MHz request
selects it and sends SET_COM_FREQ for 0 kHz instead of failing
FrequencyTooLow as the 4-byte decode would require. -/
theorem set_swd_freq_v3_three_byte_decode :
    v3EntryCode (((List.replicate 52 (0 : Nat)).set 8 1).set 15 1) 0 = 0 ∧
    v3EntryCodeSpec (((List.replicate 52 (0 : Nat)).set 8 1).set 15 1) 0
      = 16777216 ∧
    ¬ 1000000 / 1000
        ≥ v3EntryCodeSpec (((List.replicate 52 (0 : Nat)).set 8 1).set 15 1)
            0 ∧
    set_swd_freq_v3 3 "ST-Link/V3 V3J1M1B1S1"
        (fun c _ => if c = [0xf2, 0x62, 0]
          then ((List.replicate 52 (0 : Nat)).set 8 1).set 15 1
          else [0x80, 0]) 1000000
      = (.ok (), [⟨[0xf2, 0x62, 0], [], 52⟩,
                  ⟨[0xf2, 0x61, 0, 0, 0, 0, 0, 0], [], 2⟩]) := by
  decide

/-- C2: on an api-2 probe with jtag 28, read_mem16 and write_mem16
fail before any transport exchange (empty trace) but raise the BASE
StlinkException carrying (version string, J29) as bare args, not the
OutdatedStlinkFirmware kind the claim names; the two error values are
distinct for every argument pair. -/
theorem read_mem16_gate_base_exception :
    read_mem16 ⟨2, 28, "ST-Link/V2-1 V2J28M17", 1024, fun _ _ => []⟩ 0 2
      = (.error (.stlinkException ["ST-Link/V2-1 V2J28M17", "J29"]), []) ∧
    write_mem16 ⟨2, 28, "ST-Link/V2-1 V2J28M17", 1024, fun _ _ => []⟩ 0
        [0, 0]
      = (.error (.stlinkException ["ST-Link/V2-1 V2J28M17", "J29"]), []) ∧
    ∀ cur mn,
      (.stlinkException ["ST-Link/V2-1 V2J28M17", "J29"] : StlinkErr)
        ≠ .outdatedStlinkFirmware cur mn := by
  refine ⟨by decide, by decide, ?_⟩
  intro cur mn hc
  exact StlinkErr.noConfusion hc

/-- Helper: an entry selected by the expected-name filter comes from
the input list. -/
theorem mem_of_mem_select_mcus_by_expected
    {famName : String} {mcus : List McuSpec} {expected : List String}
    {m : McuSpec}
    (h : m ∈ select_mcus_by_expected famName mcus expected) : m ∈ mcus := by
  unfold select_mcus_by_expected at h
  rcases hfix : fix_mcu_names famName expected with _ | L
  · rw [hfix] at h
    exact absurd h (List.not_mem_nil m)
  · rw [hfix] at h
    dsimp only at h
    by_cases hL : L = []
    · rw [if_pos hL] at h
      exact absurd h (List.not_mem_nil m)
    · rw [if_neg hL] at h
      exact (List.mem_filter.mp h).1

/-- Helper: an entry surviving the flash-size filter has a FLASH
region of exactly the detected size. -/
theorem getSize_of_mem_selet {mcus : List McuSpec} {fs : Nat} {m : McuSpec}
    (h : m ∈ selet_mcus_by_flash_size mcus fs) :
    getSize m.memory "FLASH" = fs := by
  unfold selet_mcus_by_flash_size at h
  have h2 : fs = getSize m.memory "FLASH" := by
    simpa using (List.mem_filter.mp h).2
  exact h2.symm

/-- C3 counterexample: canonicalizing the expected name stm32f103c8
does NOT upper-case the kept name and does NOT yield STM32F103xx: the
source upper-cases only for the family-prefix test and then fixes the
original name, replacing just index 9, giving stm32f103x8. -/
theorem fix_mcu_names_claim_counterexample :
    fix_mcu_names "STM32" ["stm32f103c8"] = some ["stm32f103x8"] ∧
    upper "stm32f103c8" = "STM32F103C8" ∧
    "stm32f103x8" ≠ "STM32F103xx" ∧
    "stm32f103x8" ≠ "STM32F103x8" := by
  decide

/-- C3 amended: canonicalization upper-cases a name only to test it
against the family name truncated to the name's length; a name that
passes is kept as the ORIGINAL name with the character at index 9
replaced by x (when longer than 9 characters), so STM32F103C8 yields
STM32F103x8; candidates are kept exactly when the canonical set is
nonempty and their mcu_name starts with some canonicalized name. -/
theorem fix_mcu_names_canonicalization :
    ∀ (famName : String) (names : List String),
    (names = [] → fix_mcu_names famName names = none) ∧
    (names ≠ [] → ∃ L, fix_mcu_names famName names = some L ∧
      ∀ s, s ∈ L ↔ ∃ n ∈ names,
        pyStartsWith (upper n) (famName.take (upper n).length) = true ∧
        s = fix_mcu_name n) ∧
    (∀ (mcus : List McuSpec) (m : McuSpec) (L : List String),
      fix_mcu_names famName names = some L →
      (m ∈ select_mcus_by_expected famName mcus names ↔
        m ∈ mcus ∧ L ≠ [] ∧ ∃ e ∈ L, pyStartsWith m.mcu_name e = true)) ∧
    fix_mcu_name "STM32F103C8" = "STM32F103x8" := by
  intro famName names
  refine ⟨?_, ?_, ?_, by decide⟩
  · intro h
    simp [fix_mcu_names, h]
  · intro h
    refine ⟨(names.filterMap (fun n =>
      if pyStartsWith (upper n) (famName.take (upper n).length) = true then
        some (fix_mcu_name n)
      else none)).dedup, ?_, ?_⟩
    · unfold fix_mcu_names
      rw [if_neg h]
    · intro s
      rw [List.mem_dedup, List.mem_filterMap]
      constructor
      · rintro ⟨n, hn, hf⟩
        by_cases hc : pyStartsWith (upper n) (famName.take (upper n).length)
            = true
        · rw [if_pos hc] at hf
          exact ⟨n, hn, hc, (Option.some.inj hf).symm⟩
        · rw [if_neg hc] at hf
          exact absurd hf (by simp)
      · rintro ⟨n, hn, hc, hs⟩
        refine ⟨n, hn, ?_⟩
        rw [if_pos hc, hs]
  · intro mcus m L hL
    unfold select_mcus_by_expected
    rw [hL]
    dsimp only
    by_cases hLe : L = []
    · subst hLe
      simp
    · rw [if_neg hLe]
      simp [List.mem_filter, is_expected_mcu, hLe, List.any_eq_true]

/-- C3 amended witness: the empty filter, the canonical set for
STM32F103C8, and the selection test on a one-entry catalog. -/
theorem fix_mcu_names_canonicalization_witness :
    fix_mcu_names "STM32" [] = none ∧
    (∃ L, fix_mcu_names "STM32" ["STM32F103C8"] = some L ∧
      ∀ s, s ∈ L ↔ ∃ n ∈ ["STM32F103C8"],
        pyStartsWith (upper n) ("STM32".take (upper n).length) = true ∧
        s = fix_mcu_name n) ∧
    ((⟨"STM32F103x8", some 0x410, none, none, []⟩ : McuSpec)
        ∈ select_mcus_by_expected "STM32"
          [⟨"STM32F103x8", some 0x410, none, none, []⟩] ["STM32F103C8"] ↔
      (⟨"STM32F103x8", some 0x410, none, none, []⟩ : McuSpec)
          ∈ [(⟨"STM32F103x8", some 0x410, none, none, []⟩ : McuSpec)] ∧
        (["STM32F103x8"] : List String) ≠ [] ∧
        ∃ e ∈ ["STM32F103x8"],
          pyStartsWith "STM32F103x8" e = true) := by
  refine ⟨(fix_mcu_names_canonicalization "STM32" []).1 rfl,
    (fix_mcu_names_canonicalization "STM32" ["STM32F103C8"]).2.1
      (by decide), ?_⟩
  exact (fix_mcu_names_canonicalization "STM32" ["STM32F103C8"]).2.2.1
    [⟨"STM32F103x8", some 0x410, none, none, []⟩]
    ⟨"STM32F103x8", some 0x410, none, none, []⟩
    ["STM32F103x8"] (by decide)

/-- C8: every successful identification computes the flash size as
the raw 16-bit flash-size-register value times 1024, and every
candidate remaining in the result has a FLASH memory region of exactly
that size. -/
theorem stm32Init_flash_size_invariant :
    ∀ (fam : Stm32Family) (mem32 mem16 : Nat → Nat)
      (expectedMcus : List String) (mcus : List McuSpec) (fs : Nat),
    stm32Init fam mem32 mem16 expectedMcus = .ok (mcus, fs) →
    (∃ addr,
      flash_size_reg_addr fam
          (select_by_specs fam.MCUS (mem32 fam.IDCODE_REG % 4096))
        = .ok addr ∧
      fs = mem16 addr * 1024) ∧
    ∀ m ∈ mcus, getSize m.memory "FLASH" = fs := by
  intro fam mem32 mem16 expectedMcus mcus fs h
  unfold stm32Init at h
  dsimp only at h
  split at h
  · exact Except.noConfusion h
  · split at h
    · exact Except.noConfusion h
    · rename_i addr heq
      split at h
      · exact Except.noConfusion h
      · split at h
        · injection h with h2
          injection h2 with hm hf
          subst hm
          subst hf
          refine ⟨⟨addr, heq, rfl⟩, ?_⟩
          intro m hm2
          exact getSize_of_mem_selet hm2
        · split at h
          · exact Except.noConfusion h
          · injection h with h2
            injection h2 with hm hf
            subst hm
            subst hf
            refine ⟨⟨addr, heq, rfl⟩, ?_⟩
            intro m hm2
            exact getSize_of_mem_selet
              (mem_of_mem_select_mcus_by_expected hm2)

/-- C8 witness: identifying the one-entry catalog with raw flash-size
value 64 succeeds with 65536 bytes and the candidate's FLASH region is
65536 bytes. -/
theorem stm32Init_flash_size_invariant_witness :
    (∃ addr,
      flash_size_reg_addr famW
          (select_by_specs famW.MCUS ((fun _ => 0x20036410) famW.IDCODE_REG
            % 4096))
        = .ok addr ∧
      65536 = (fun _ => (64 : Nat)) addr * 1024) ∧
    ∀ m ∈ [(⟨"STM32F103x8", some 0x410, none, none,
        [⟨"FLASH", 0x08000000, 65536⟩]⟩ : McuSpec)],
      getSize m.memory "FLASH" = 65536 := by
  exact stm32Init_flash_size_invariant famW (fun _ => 0x20036410)
    (fun _ => 64) []
    [⟨"STM32F103x8", some 0x410, none, none,
      [⟨"FLASH", 0x08000000, 65536⟩]⟩]
    65536 (by decide)

/-- C9: when the family constant FLASH_SIZE_REG is absent (or zero,
which Python treats as falsy) and no dev_id-matching candidate has a
flash_size_reg field, identification fails with the unstructured
Python KeyError of set().pop() on an empty set, not with any kind of
the structured taxonomy; and _mcu_value raises the fatal McuError
exactly when two or more distinct values are present. -/
theorem stm32Init_missing_flash_size_reg :
    (∀ (fam : Stm32Family) (mem32 mem16 : Nat → Nat)
       (expectedMcus : List String),
      select_by_specs fam.MCUS (mem32 fam.IDCODE_REG % 4096) ≠ [] →
      (fam.FLASH_SIZE_REG = none ∨ fam.FLASH_SIZE_REG = some 0) →
      (∀ m ∈ select_by_specs fam.MCUS (mem32 fam.IDCODE_REG % 4096),
        m.flash_size_reg = none) →
      stm32Init fam mem32 mem16 expectedMcus = .error .pyKeyError) ∧
    (∀ (mcus : List McuSpec) (key : McuSpec → Option Nat),
      (∃ msg, mcu_value mcus key = .error (.mcuError msg)) ↔
        ∃ a ∈ mcus.filterMap key, ∃ b ∈ mcus.filterMap key, a ≠ b) := by
  constructor
  · intro fam mem32 mem16 expectedMcus hne hreg hnone
    have hfm : (select_by_specs fam.MCUS
        (mem32 fam.IDCODE_REG % 4096)).filterMap
          (fun m => m.flash_size_reg) = [] :=
      List.filterMap_eq_nil_iff.mpr hnone
    have hval : mcu_value
        (select_by_specs fam.MCUS (mem32 fam.IDCODE_REG % 4096))
        (fun m => m.flash_size_reg) = .error .pyKeyError := by
      unfold mcu_value mcu_values
      rw [hfm]
      rfl
    have haddr : flash_size_reg_addr fam
        (select_by_specs fam.MCUS (mem32 fam.IDCODE_REG % 4096))
        = .error .pyKeyError := by
      unfold flash_size_reg_addr
      rcases hreg with h | h <;> rw [h]
      · exact hval
      · exact hval
    unfold stm32Init
    dsimp only
    rw [if_neg hne, haddr]
  · intro mcus key
    constructor
    · rintro ⟨msg, hmsg⟩
      by_cases hlen : (mcu_values mcus key).length > 1
      · rcases hdd : (mcus.filterMap key).dedup with _ | ⟨a, _ | ⟨b, t⟩⟩
        · rw [mcu_values, hdd] at hlen
          simp at hlen
        · rw [mcu_values, hdd] at hlen
          simp at hlen
        · have hnd := List.nodup_dedup (mcus.filterMap key)
          rw [hdd] at hnd
          have hab : a ≠ b := by
            intro hc
            subst hc
            exact (List.nodup_cons.mp hnd).1 (List.mem_cons_self a t)
          have ha : a ∈ mcus.filterMap key :=
            List.mem_dedup.mp (hdd ▸ List.mem_cons_self a (b :: t))
          have hb : b ∈ mcus.filterMap key :=
            List.mem_dedup.mp
              (hdd ▸ List.mem_cons_of_mem a (List.mem_cons_self b t))
          exact ⟨a, ha, b, hb, hab⟩
      · exfalso
        unfold mcu_value at hmsg
        rw [if_neg hlen] at hmsg
        rcases hdd : mcu_values mcus key with _ | ⟨v, t⟩
        · rw [hdd] at hmsg
          dsimp only at hmsg
          injection hmsg with h2
          exact McuErr.noConfusion h2
        · rw [hdd] at hmsg
          exact Except.noConfusion hmsg
    · rintro ⟨a, ha, b, hb, hab⟩
      have hlen : (mcu_values mcus key).length > 1 := by
        have ha2 : a ∈ (mcus.filterMap key).dedup := List.mem_dedup.mpr ha
        have hb2 : b ∈ (mcus.filterMap key).dedup := List.mem_dedup.mpr hb
        rcases hdd : (mcus.filterMap key).dedup with _ | ⟨x, _ | ⟨y, t⟩⟩
        · rw [hdd] at ha2
          exact absurd ha2 (List.not_mem_nil a)
        · rw [hdd] at ha2 hb2
          simp at ha2 hb2
          exact absurd (ha2.trans hb2.symm) hab
        · rw [mcu_values, hdd]
          simp
      refine ⟨"Error, more values in MCUs under key", ?_⟩
      unfold mcu_value
      rw [if_pos hlen]

/-- C9 witness: the one-entry family with no flash-size register
anywhere fails with the bare KeyError; two entries carrying distinct
flash_size_reg values trigger the fatal McuError. -/
theorem stm32Init_missing_flash_size_reg_witness :
    stm32Init famW9 (fun _ => 0x20036410) (fun _ => 64) []
      = .error .pyKeyError ∧
    ∃ msg, mcu_value
        [⟨"A", none, some 1, none, []⟩, ⟨"B", none, some 2, none, []⟩]
        (fun m => m.flash_size_reg) = .error (.mcuError msg) := by
  constructor
  · exact stm32Init_missing_flash_size_reg.1 famW9 (fun _ => 0x20036410)
      (fun _ => 64) [] (by decide) (Or.inl rfl) (by decide)
  · exact (stm32Init_missing_flash_size_reg.2
      [⟨"A", none, some 1, none, []⟩, ⟨"B", none, some 2, none, []⟩]
      (fun m => m.flash_size_reg)).mpr (by decide)

end PySwd
